import Mathlib

/-!
Verification development for the FairFare backend (`backend/main.py`).

The Python service is shallowly embedded over `ℝ`:

* `haversine` mirrors the great-circle helper (`math.radians`, `math.atan2`
  and `math.sqrt` become `Real`-valued functions; `Real.sqrt` is total and
  agrees with `math.sqrt` on the nonnegative arguments that actually occur);
* the trained artifacts (scaler, encoder, the three regression models) are
  opaque records, exactly as the spec treats them: only their declared
  column names, stored means and `transform`/`predict` capabilities appear;
* `pandas` one-row data frames become association lists
  `List (String × ℝ)`; `numpy` arrays become `List ℝ`; column selection
  `df[cols]` becomes `colSelect`;
* Python `round(x, 2)` becomes exact decimal round-half-to-even `round2`
  (the idealisation of CPython's banker's rounding over the rationals);
* a raised `RuntimeError` becomes `Except.error`.
-/

namespace FairFare

/-- Degrees to radians, mirroring `math.radians`. -/
noncomputable def radians (x : ℝ) : ℝ := x * (Real.pi / 180)

/-- Two-argument arctangent, mirroring `math.atan2` (C `atan2` convention,
ignoring signed zeros, which `ℝ` does not have). -/
noncomputable def atan2 (y x : ℝ) : ℝ :=
  if 0 < x then Real.arctan (y / x)
  else if x < 0 then
    (if 0 ≤ y then Real.arctan (y / x) + Real.pi
     else Real.arctan (y / x) - Real.pi)
  else if 0 < y then Real.pi / 2
  else if y < 0 then -(Real.pi / 2)
  else 0

/-- Function `haversine` from `backend/main.py`: great-circle distance in km between
two latitude/longitude pairs given in degrees, with Earth radius 6371 km. -/
noncomputable def haversine (lat1 lon1 lat2 lon2 : ℝ) : ℝ :=
  let R : ℝ := 6371
  let phi1 := radians lat1
  let phi2 := radians lat2
  let dphi := radians (lat2 - lat1)
  let dlambda := radians (lon2 - lon1)
  let a := Real.sin (dphi / 2) ^ 2 +
    Real.cos phi1 * Real.cos phi2 * Real.sin (dlambda / 2) ^ 2
  2 * R * atan2 (Real.sqrt a) (Real.sqrt (1 - a))

/-- Function `compute_fair_taxi_price` from `backend/main.py`: transparent rule-based
baseline price, independent of every trained model artifact. -/
noncomputable def compute_fair_taxi_price (distance_km traffic_level : ℝ) : ℝ :=
  let base : ℝ := 3.0
  let per_km : ℝ := 2.0
  let distance_component := per_km * max distance_km 0.1
  let traffic_factor : ℝ := 1.0 + 0.15 * (traffic_level / 100.0)
  (base + distance_component) * traffic_factor

/-- The surge classification of `predict` (step 7 of `backend/main.py`):
`1.30` on heavy traffic or bad weather, `1.15` on mild traffic, else `1.00`. -/
noncomputable def surge_multiplier_of (traffic_level : ℝ) (weather : String) : ℝ :=
  let bad_weather := weather ∈ ["Rainy", "Snowy", "Foggy"]
  if traffic_level > 60 ∨ bad_weather then 1.30
  else if traffic_level > 35 then 1.15
  else 1.0

/-- Round-half-to-even to an integer: the exact-arithmetic idealisation of
CPython's `round` (banker's rounding). -/
noncomputable def roundHalfEven (x : ℝ) : ℤ :=
  if x - ⌊x⌋ = 1 / 2 then (if 2 ∣ ⌊x⌋ then ⌊x⌋ else ⌊x⌋ + 1)
  else round x

/-- Python `round(x, 2)` under exact decimal arithmetic. -/
noncomputable def round2 (x : ℝ) : ℝ := (roundHalfEven (x * 100) : ℝ) / 100

/-- Python `round(x, 3)` under exact decimal arithmetic (used only for the
`distance_km` echo field of the response). -/
noncomputable def round3 (x : ℝ) : ℝ := (roundHalfEven (x * 1000) : ℝ) / 1000

/-- The `RideRequest` pydantic schema of `backend/main.py`. -/
structure RideRequest where
  pickup_lat : ℝ
  pickup_lng : ℝ
  drop_lat : ℝ
  drop_lng : ℝ
  distance_km : ℝ
  traffic_level : ℝ
  weather : String
  car_type : String
  hour : ℤ
  day_of_week : ℤ

/-- The fitted numeric scaler artifact, exactly at the capability surface the
code uses: `feature_names_in_`, `mean_`, and `transform`. -/
structure Scaler where
  feature_names : List String
  mean : List ℝ
  transform : List ℝ → List ℝ

/-- The fitted categorical encoder artifact: `feature_names_in_`,
`transform`, and `get_feature_names_out`. -/
structure Encoder where
  feature_names_in : List String
  transform : List String → List ℝ
  output_names : List String

/-- The three optional regression models (`linear_model`, `rf_model`,
`hist_gbm_model`); any of them may have failed `_safe_load` and be absent. -/
structure ModelSet where
  linear : Option (List (String × ℝ) → ℝ)
  rf : Option (List (String × ℝ) → ℝ)
  hist : Option (List (String × ℝ) → ℝ)

/-- Function `predict_app_price_ensemble` from `backend/main.py`: run every loaded
model on the same feature frame, return the mean and the per-model map, or
raise (here: `Except.error`) when no model is loaded. -/
noncomputable def predict_app_price_ensemble (ms : ModelSet)
    (features_df : List (String × ℝ)) :
    Except String (ℝ × List (String × ℝ)) :=
  let acc1 : List ℝ × List (String × ℝ) :=
    match ms.linear with
    | some m => ([m features_df], [("linear_regression", m features_df)])
    | none => ([], [])
  let acc2 : List ℝ × List (String × ℝ) :=
    match ms.rf with
    | some m => (acc1.1 ++ [m features_df], acc1.2 ++ [("random_forest", m features_df)])
    | none => acc1
  let acc3 : List ℝ × List (String × ℝ) :=
    match ms.hist with
    | some m => (acc2.1 ++ [m features_df], acc2.2 ++ [("hist_gbm", m features_df)])
    | none => acc2
  if acc3.1 = [] then
    Except.error "No ML models are loaded – cannot predict app price"
  else
    Except.ok (acc3.1.sum / (acc3.1.length : ℝ), acc3.2)

/-- Step 1 of `predict`: use the supplied distance when positive, otherwise
fall back to the haversine distance between the coordinates. -/
noncomputable def resolvedDistance (req : RideRequest) : ℝ :=
  if req.distance_km ≤ 0 then
    haversine req.pickup_lat req.pickup_lng req.drop_lat req.drop_lng
  else req.distance_km

/-- The numeric-column resolution of step 2 of `predict`, for the column at
index `i` named `col` (first matching rule wins; the final fallback is the
scaler's stored training mean `means[i]`). -/
noncomputable def numericValue (s : Scaler) (req : RideRequest)
    (dkm dmi : ℝ) (i : ℕ) (col : String) : ℝ :=
  if col = "trip_distance" then dmi
  else if col = "distance_km" then dkm
  else if col ∈ ["distance_squared", "trip_distance_squared"] then dmi ^ 2
  else if col = "hour" then (req.hour : ℝ)
  else if col = "day_of_week" then (req.day_of_week : ℝ)
  else if col ∈ ["traffic_multiplier", "traffic_level", "traffic_congestion"] then
    req.traffic_level
  else s.mean.getD i 0

/-- The `numeric_row` record of step 2 of `predict`, keyed in
`scaler.feature_names_in_` order. -/
noncomputable def numericRow (s : Scaler) (req : RideRequest)
    (dkm dmi : ℝ) : List (String × ℝ) :=
  s.feature_names.enum.map (fun p => (p.2, numericValue s req dkm dmi p.1 p.2))

/-- The frame `num_df_raw[numeric_features]` handed to `scaler.transform`: the numeric
row's values in declared column order. -/
noncomputable def numRawVec (s : Scaler) (req : RideRequest)
    (dkm dmi : ℝ) : List ℝ :=
  (numericRow s req dkm dmi).map Prod.snd

/-- The vector `num_scaled`: the scaler's output on the raw numeric row. -/
noncomputable def numScaled (s : Scaler) (req : RideRequest)
    (dkm dmi : ℝ) : List ℝ :=
  s.transform (numRawVec s req dkm dmi)

/-- The frame `num_df = pd.DataFrame(num_scaled, columns=numeric_features)`. -/
noncomputable def numDf (s : Scaler) (req : RideRequest)
    (dkm dmi : ℝ) : List (String × ℝ) :=
  s.feature_names.zip (numScaled s req dkm dmi)

/-- The categorical-column resolution of step 3 of `predict`. -/
def categoricalValue (req : RideRequest) (col : String) : String :=
  if col = "weather_condition" then req.weather
  else if col = "car_type" then req.car_type
  else "Unknown"

/-- The `cat_row` record of step 3 of `predict`, keyed in
`encoder.feature_names_in_` order. -/
def catRow (e : Encoder) (req : RideRequest) : List (String × String) :=
  e.feature_names_in.map (fun col => (col, categoricalValue req col))

/-- The row `cat_df_raw[cat_cols]` handed to `encoder.transform`. -/
def catVals (e : Encoder) (req : RideRequest) : List String :=
  (catRow e req).map Prod.snd

/-- The vector `encoded`: the encoder's expanded numeric output. -/
def encodedVec (e : Encoder) (req : RideRequest) : List ℝ :=
  e.transform (catVals e req)

/-- The frame `cat_df = pd.DataFrame(encoded, columns=encoded_feature_names)`. -/
def catDf (e : Encoder) (req : RideRequest) : List (String × ℝ) :=
  e.output_names.zip (encodedVec e req)

/-- The list `feature_columns = numeric_features + list(encoded_feature_names)`. -/
def featureColumns (s : Scaler) (e : Encoder) : List String :=
  s.feature_names ++ e.output_names

/-- Column selection `df[cols]` on a one-row frame: each requested column
paired with its value in `df`. -/
def colSelect (df : List (String × ℝ)) (cols : List String) : List (String × ℝ) :=
  cols.filterMap (fun c => (df.lookup c).map (fun v => (c, v)))

/-- The frame `final_df = pd.concat([num_df, cat_df], axis=1)[feature_columns]`:
the one feature frame handed to every model, for the given resolved
distances. -/
noncomputable def finalDf (s : Scaler) (e : Encoder) (req : RideRequest)
    (dkm dmi : ℝ) : List (String × ℝ) :=
  colSelect (numDf s req dkm dmi ++ catDf e req) (featureColumns s e)

/-- The feature frame `predict` actually builds: distances come from the
Distance Resolver, miles are km × 0.621371. -/
noncomputable def pipelineDf (s : Scaler) (e : Encoder) (req : RideRequest) :
    List (String × ℝ) :=
  finalDf s e req (resolvedDistance req) (resolvedDistance req * 0.621371)

/-- Step 5 of `predict`: the ensemble run on the pipeline's feature frame. -/
noncomputable def ensembleResult (ms : ModelSet) (s : Scaler) (e : Encoder)
    (req : RideRequest) : Except String (ℝ × List (String × ℝ)) :=
  predict_app_price_ensemble ms (pipelineDf s e req)

/-- The JSON body returned by the `/predict` endpoint. -/
structure FareResponse where
  fair_taxi_price : ℝ
  model_base_price : ℝ
  hidden_fee_vs_fair : ℝ
  final_ai_fare : ℝ
  surge_multiplier : ℝ
  surge_fee : ℝ
  model_used : String
  model_component_prices : List (String × ℝ)
  in_pickup_lat : ℝ
  in_pickup_lng : ℝ
  in_drop_lat : ℝ
  in_drop_lng : ℝ
  in_distance_km : ℝ
  in_traffic_level : ℝ
  in_weather : String
  in_car_type : String
  in_hour : ℤ
  in_day_of_week : ℤ

/-- The `/predict` endpoint of `backend/main.py`, end to end: resolve the
distance, build the feature frame, run the ensemble, and assemble the
response; an ensemble failure propagates as an error. -/
noncomputable def predictEndpoint (ms : ModelSet) (s : Scaler) (e : Encoder)
    (req : RideRequest) : Except String FareResponse :=
  let distance_km := resolvedDistance req
  match ensembleResult ms s e req with
  | Except.error msg => Except.error msg
  | Except.ok (app_base_price, component_prices) =>
    let fair_price := compute_fair_taxi_price distance_km req.traffic_level
    let hidden_fee_vs_fair := app_base_price - fair_price
    let sm := surge_multiplier_of req.traffic_level req.weather
    let final_fare := app_base_price * sm
    let surge_fee := final_fare - app_base_price
    Except.ok
      { fair_taxi_price := round2 fair_price
        model_base_price := round2 app_base_price
        hidden_fee_vs_fair := round2 hidden_fee_vs_fair
        final_ai_fare := round2 final_fare
        surge_multiplier := round2 sm
        surge_fee := round2 surge_fee
        model_used := "ensemble"
        model_component_prices :=
          component_prices.map (fun p => (p.1, round2 p.2))
        in_pickup_lat := req.pickup_lat
        in_pickup_lng := req.pickup_lng
        in_drop_lat := req.drop_lat
        in_drop_lng := req.drop_lng
        in_distance_km := round3 distance_km
        in_traffic_level := req.traffic_level
        in_weather := req.weather
        in_car_type := req.car_type
        in_hour := req.hour
        in_day_of_week := req.day_of_week }

/-- The predictions the loaded models produce, in the order the ensemble
visits them (linear regression, random forest, hist-GBM). -/
noncomputable def loadedPredictions (ms : ModelSet)
    (df : List (String × ℝ)) : List ℝ :=
  (match ms.linear with | some m => [m df] | none => []) ++
  (match ms.rf with | some m => [m df] | none => []) ++
  (match ms.hist with | some m => [m df] | none => [])

/-- One component entry per loaded model, each mapped to its own
prediction; absent models contribute no entry. -/
noncomputable def loadedComponents (ms : ModelSet)
    (df : List (String × ℝ)) : List (String × ℝ) :=
  (match ms.linear with | some m => [("linear_regression", m df)] | none => []) ++
  (match ms.rf with | some m => [("random_forest", m df)] | none => []) ++
  (match ms.hist with | some m => [("hist_gbm", m df)] | none => [])

/-- C6: the fair-price rule engine returns exactly
`(3.0 + 2.0 * max distance_km 0.1) * (1.0 + 0.15 * (traffic_level / 100))`
for every input, independent of any model artifact, and in particular
returns 23.00 at `distance_km = 10`, `traffic_level = 0`. -/
theorem C6_fair_price_formula :
    (∀ d t : ℝ, compute_fair_taxi_price d t =
      (3.0 + 2.0 * max d 0.1) * (1.0 + 0.15 * (t / 100.0))) ∧
    compute_fair_taxi_price 10 0 = 23 := by
  constructor
  · intro d t; rfl
  · simp only [compute_fair_taxi_price]
    rw [max_eq_left (by norm_num : (0.1:ℝ) ≤ 10)]
    norm_num

/-- C3: with zero loaded models, the ensemble predictor fails with the
explicit no-models error, and the whole `/predict` endpoint propagates that
error, so no price or fare quote is ever produced for the request. -/
theorem C3_no_models_error (s : Scaler) (e : Encoder) (req : RideRequest)
    (df : List (String × ℝ)) :
    predict_app_price_ensemble ⟨none, none, none⟩ df =
      Except.error "No ML models are loaded – cannot predict app price" ∧
    predictEndpoint ⟨none, none, none⟩ s e req =
      Except.error "No ML models are loaded – cannot predict app price" := by
  constructor <;> rfl

/-- C2: for every feature vector and every non-empty subset of loaded
models, the ensemble invokes each loaded model on the identical vector and
returns the unweighted arithmetic mean of exactly the loaded models'
predictions, together with a component map holding exactly one entry per
loaded model (none for absent models), each mapped to its own prediction. -/
theorem C2_ensemble_mean (ms : ModelSet) (df : List (String × ℝ))
    (h : ms.linear ≠ none ∨ ms.rf ≠ none ∨ ms.hist ≠ none) :
    predict_app_price_ensemble ms df =
      Except.ok
        ((loadedPredictions ms df).sum / ((loadedPredictions ms df).length : ℝ),
          loadedComponents ms df) ∧
    (loadedComponents ms df).lookup "linear_regression" =
      ms.linear.map (fun m => m df) ∧
    (loadedComponents ms df).lookup "random_forest" =
      ms.rf.map (fun m => m df) ∧
    (loadedComponents ms df).lookup "hist_gbm" =
      ms.hist.map (fun m => m df) := by
  obtain ⟨l, r, g⟩ := ms
  cases l <;> cases r <;> cases g <;>
    simp_all [predict_app_price_ensemble, loadedPredictions, loadedComponents,
      List.lookup]

/-- Witness for C2 at a concrete model set (only the linear model loaded)
and the empty feature frame. -/
theorem C2_ensemble_mean_witness :
    ((⟨some fun _ => (5:ℝ), none, none⟩ : ModelSet).linear ≠ none ∨
      (⟨some fun _ => (5:ℝ), none, none⟩ : ModelSet).rf ≠ none ∨
      (⟨some fun _ => (5:ℝ), none, none⟩ : ModelSet).hist ≠ none) ∧
    (predict_app_price_ensemble ⟨some fun _ => (5:ℝ), none, none⟩ [] =
      Except.ok
        ((loadedPredictions ⟨some fun _ => (5:ℝ), none, none⟩ []).sum /
          ((loadedPredictions ⟨some fun _ => (5:ℝ), none, none⟩ []).length : ℝ),
          loadedComponents ⟨some fun _ => (5:ℝ), none, none⟩ []) ∧
    (loadedComponents ⟨some fun _ => (5:ℝ), none, none⟩ []).lookup
        "linear_regression" =
      (⟨some fun _ => (5:ℝ), none, none⟩ : ModelSet).linear.map (fun m => m []) ∧
    (loadedComponents ⟨some fun _ => (5:ℝ), none, none⟩ []).lookup
        "random_forest" =
      (⟨some fun _ => (5:ℝ), none, none⟩ : ModelSet).rf.map (fun m => m []) ∧
    (loadedComponents ⟨some fun _ => (5:ℝ), none, none⟩ []).lookup
        "hist_gbm" =
      (⟨some fun _ => (5:ℝ), none, none⟩ : ModelSet).hist.map (fun m => m [])) :=
  ⟨Or.inl (by simp), C2_ensemble_mean ⟨some fun _ => (5:ℝ), none, none⟩ []
    (Or.inl (by simp))⟩

/-- The value `atan2 y x` is nonnegative whenever both arguments are nonnegative. -/
lemma atan2_nonneg {y x : ℝ} (hy : 0 ≤ y) (hx : 0 ≤ x) : 0 ≤ atan2 y x := by
  unfold atan2
  by_cases hpos : 0 < x
  · rw [if_pos hpos, ← Real.arctan_zero]
    exact Real.arctan_strictMono.monotone (div_nonneg hy hpos.le)
  · have hx0 : x = 0 := le_antisymm (not_lt.mp hpos) hx
    rw [if_neg hpos, if_neg (by rw [hx0]; exact lt_irrefl 0)]
    by_cases hy0 : 0 < y
    · rw [if_pos hy0]
      linarith [Real.pi_pos]
    · rw [if_neg hy0, if_neg (not_lt.mpr hy)]

/-- C7: the Distance Resolver returns a supplied positive `distance_km`
unchanged; for `distance_km ≤ 0` it returns the haversine great-circle
distance between the pickup and drop coordinates, and the haversine value
is nonnegative for all coordinates. -/
theorem C7_distance_resolver :
    (∀ req : RideRequest, 0 < req.distance_km →
      resolvedDistance req = req.distance_km) ∧
    (∀ req : RideRequest, req.distance_km ≤ 0 →
      resolvedDistance req =
        haversine req.pickup_lat req.pickup_lng req.drop_lat req.drop_lng) ∧
    (∀ lat1 lon1 lat2 lon2 : ℝ, 0 ≤ haversine lat1 lon1 lat2 lon2) := by
  refine ⟨?_, ?_, ?_⟩
  · intro req h
    rw [resolvedDistance, if_neg (not_le.mpr h)]
  · intro req h
    rw [resolvedDistance, if_pos h]
  · intro lat1 lon1 lat2 lon2
    simp only [haversine]
    have h2 : (0:ℝ) ≤ 2 * 6371 := by norm_num
    exact mul_nonneg h2 (atan2_nonneg (Real.sqrt_nonneg _) (Real.sqrt_nonneg _))

/-- Witness for C7 at two concrete requests, one with a positive supplied
distance and one with distance zero. -/
theorem C7_distance_resolver_witness :
    ((0:ℝ) < 5 ∧
      resolvedDistance ⟨1, 2, 3, 4, 5, 50, "Sunny", "Economy", 10, 2⟩ = 5) ∧
    ((0:ℝ) ≤ 0 ∧
      resolvedDistance ⟨1, 2, 3, 4, 0, 50, "Sunny", "Economy", 10, 2⟩ =
        haversine 1 2 3 4) ∧
    0 ≤ haversine 1 2 3 4 :=
  ⟨⟨by norm_num, C7_distance_resolver.1 _ (by norm_num)⟩,
   ⟨le_refl 0, C7_distance_resolver.2.1 _ (by norm_num)⟩,
   C7_distance_resolver.2.2 1 2 3 4⟩

/-- C8 counterexample: fair price is not strictly increasing in distance —
two distinct distances below the 0.1 km floor give the same price. -/
theorem C8_counterexample :
    ¬ (∀ t d1 d2 : ℝ, d1 < d2 →
        compute_fair_taxi_price d1 t < compute_fair_taxi_price d2 t) := by
  intro h
  have h2 := h 0 0 0.05 (by norm_num)
  have e1 : compute_fair_taxi_price 0 0 = 3.2 := by
    simp only [compute_fair_taxi_price]
    rw [max_eq_right (by norm_num : (0:ℝ) ≤ 0.1)]
    norm_num
  have e2 : compute_fair_taxi_price 0.05 0 = 3.2 := by
    simp only [compute_fair_taxi_price]
    rw [max_eq_right (by norm_num : (0.05:ℝ) ≤ 0.1)]
    norm_num
  rw [e1, e2] at h2
  exact lt_irrefl _ h2

/-- C8 (amended): with a nonnegative traffic level fixed, fair price is
non-decreasing in distance and strictly increasing once both distances are
at least the 0.1 km floor; with distance fixed it is non-decreasing in
traffic level. -/
theorem C8_monotonicity :
    (∀ t d1 d2 : ℝ, 0 ≤ t → d1 ≤ d2 →
      compute_fair_taxi_price d1 t ≤ compute_fair_taxi_price d2 t) ∧
    (∀ t d1 d2 : ℝ, 0 ≤ t → 0.1 ≤ d1 → d1 < d2 →
      compute_fair_taxi_price d1 t < compute_fair_taxi_price d2 t) ∧
    (∀ d t1 t2 : ℝ, t1 ≤ t2 →
      compute_fair_taxi_price d t1 ≤ compute_fair_taxi_price d t2) := by
  refine ⟨?_, ?_, ?_⟩
  · intro t d1 d2 ht h
    simp only [compute_fair_taxi_price]
    have hm : max d1 0.1 ≤ max d2 0.1 := max_le_max h (le_refl 0.1)
    have hf : (0:ℝ) ≤ 1.0 + 0.15 * (t / 100.0) := by
      have : (0:ℝ) ≤ 0.15 * (t / 100.0) := by positivity
      linarith
    apply mul_le_mul_of_nonneg_right _ hf
    linarith
  · intro t d1 d2 ht h01 h
    simp only [compute_fair_taxi_price]
    have hm1 : max d1 0.1 = d1 := max_eq_left h01
    have hm2 : max d2 0.1 = d2 := max_eq_left (h01.trans h.le)
    have hf : (0:ℝ) < 1.0 + 0.15 * (t / 100.0) := by
      have : (0:ℝ) ≤ 0.15 * (t / 100.0) := by positivity
      linarith
    rw [hm1, hm2]
    apply mul_lt_mul_of_pos_right _ hf
    linarith
  · intro d t1 t2 h
    simp only [compute_fair_taxi_price]
    have hL : (0:ℝ) < 3.0 + 2.0 * max d 0.1 := by
      have := le_max_right d (0.1:ℝ)
      linarith
    apply mul_le_mul_of_nonneg_left _ hL.le
    linarith

/-- Witness for C8's amended monotonicity at concrete inputs. -/
theorem C8_monotonicity_witness :
    ((0:ℝ) ≤ 0 ∧ (1:ℝ) ≤ 2 ∧
      compute_fair_taxi_price 1 0 ≤ compute_fair_taxi_price 2 0) ∧
    ((0:ℝ) ≤ 0 ∧ (0.1:ℝ) ≤ 0.1 ∧ (0.1:ℝ) < 5 ∧
      compute_fair_taxi_price 0.1 0 < compute_fair_taxi_price 5 0) ∧
    ((10:ℝ) ≤ 20 ∧
      compute_fair_taxi_price 3 10 ≤ compute_fair_taxi_price 3 20) :=
  ⟨⟨le_refl 0, by norm_num,
      C8_monotonicity.1 0 1 2 (le_refl 0) (by norm_num)⟩,
   ⟨le_refl 0, le_refl 0.1, by norm_num,
      C8_monotonicity.2.1 0 0.1 5 (le_refl 0) (le_refl 0.1) (by norm_num)⟩,
   ⟨by norm_num, C8_monotonicity.2.2 3 10 20 (by norm_num)⟩⟩

/-- Round-half-to-even never moves a value by more than one half. -/
lemma abs_roundHalfEven_sub (x : ℝ) : |(roundHalfEven x : ℝ) - x| ≤ 1 / 2 := by
  unfold roundHalfEven
  split_ifs with h1 h2
  · rw [abs_le]
    constructor <;> linarith
  · push_cast
    rw [abs_le]
    constructor <;> linarith
  · rw [abs_sub_comm]
    exact abs_sub_round x

/-- Rounding to two decimals moves a value by at most `1/200`. -/
lemma abs_round2_sub (x : ℝ) : |round2 x - x| ≤ 1 / 200 := by
  have h := abs_roundHalfEven_sub (x * 100)
  rw [abs_le] at h ⊢
  unfold round2
  constructor <;> [linarith [h.1]; linarith [h.2]]

/-- The surge classification only ever produces 1.30, 1.15, or 1.00. -/
lemma surge_multiplier_of_mem (t : ℝ) (w : String) :
    surge_multiplier_of t w = 1.30 ∨ surge_multiplier_of t w = 1.15 ∨
      surge_multiplier_of t w = 1.0 := by
  simp only [surge_multiplier_of]
  split_ifs <;> simp

/-- C9 counterexample: at `model_base_price = 0` the surge classification
yields multiplier 1.30 (traffic 75, clear weather) yet the rounded final
fare still equals the rounded base price, so the rounded fares do not
coincide "only when the multiplier is 1.00". -/
theorem C9_counterexample :
    surge_multiplier_of 75 "Sunny" = 1.30 ∧
    surge_multiplier_of 75 "Sunny" ≠ 1.0 ∧
    round2 (0 * surge_multiplier_of 75 "Sunny") = round2 0 := by
  have hm : surge_multiplier_of 75 "Sunny" = 1.30 := by
    unfold surge_multiplier_of
    rw [if_pos (Or.inl (by norm_num))]
  refine ⟨hm, by rw [hm]; norm_num, ?_⟩
  rw [zero_mul]

/-- C9 (amended): with multiplier 1.00 the rounded final fare always equals
the rounded base price; with a surge multiplier of 1.15 or 1.30 they differ
provided the base price is at least 0.07 (for smaller bases, e.g. 0, the
two rounded values can coincide). -/
theorem C9_rounded_fare (t : ℝ) (w : String) (b : ℝ) :
    (surge_multiplier_of t w = 1.0 →
      round2 (b * surge_multiplier_of t w) = round2 b) ∧
    (surge_multiplier_of t w ≠ 1.0 → 0.07 ≤ b →
      round2 (b * surge_multiplier_of t w) ≠ round2 b) := by
  constructor
  · intro h
    rw [h, show (1.0:ℝ) = 1 from by norm_num, mul_one]
  · intro hne hb
    have h2 := abs_round2_sub b
    rw [abs_le] at h2
    rcases surge_multiplier_of_mem t w with h | h | h
    · rw [h]
      have h1 := abs_round2_sub (b * 1.30)
      rw [abs_le] at h1
      intro heq
      rw [heq] at h1
      linarith [h1.1, h1.2, h2.1, h2.2]
    · rw [h]
      have h1 := abs_round2_sub (b * 1.15)
      rw [abs_le] at h1
      intro heq
      rw [heq] at h1
      linarith [h1.1, h1.2, h2.1, h2.2]
    · exact absurd h hne

/-- Witness for C9's amended statement: multiplier 1.15 (traffic 40, clear
weather) changes the rounded fare of a 10.00 base price, and multiplier
1.00 (traffic 20) leaves a 7.00 base price's rounded fare unchanged. -/
theorem C9_rounded_fare_witness :
    (surge_multiplier_of 20 "Sunny" = 1.0 ∧
      round2 (7 * surge_multiplier_of 20 "Sunny") = round2 7) ∧
    (surge_multiplier_of 40 "Sunny" ≠ 1.0 ∧ (0.07:ℝ) ≤ 10 ∧
      round2 (10 * surge_multiplier_of 40 "Sunny") ≠ round2 10) := by
  have hm20 : surge_multiplier_of 20 "Sunny" = 1.0 := by
    simp only [surge_multiplier_of]
    rw [if_neg (by norm_num; decide), if_neg (by norm_num)]
  have hm40 : surge_multiplier_of 40 "Sunny" = 1.15 := by
    simp only [surge_multiplier_of]
    rw [if_neg (by norm_num; decide), if_pos (by norm_num)]
  exact ⟨⟨hm20, (C9_rounded_fare 20 "Sunny" 7).1 hm20⟩,
    ⟨by rw [hm40]; norm_num, by norm_num,
      (C9_rounded_fare 40 "Sunny" 10).2 (by rw [hm40]; norm_num) (by norm_num)⟩⟩

/-- The numeric column names matched by some distance/hour/day/traffic
resolution rule of step 2 of `predict`; every other column falls back to
the scaler's stored mean. -/
def mappedNumericNames : List String :=
  ["trip_distance", "distance_km", "distance_squared", "trip_distance_squared",
   "hour", "day_of_week", "traffic_multiplier", "traffic_level",
   "traffic_congestion"]

/-- C4: the numeric record covers every column the fitted scaler declares
(no missing keys, no error), and every column matched by no
distance/hour/day/traffic rule receives exactly the scaler's stored
training mean at that column's index. -/
theorem C4_numeric_row_total (s : Scaler) (req : RideRequest) (dkm dmi : ℝ)
    (hlen : s.mean.length = s.feature_names.length) :
    (numericRow s req dkm dmi).map Prod.fst = s.feature_names ∧
    (∀ (i : ℕ) (col : String), s.feature_names[i]? = some col → col ∉ mappedNumericNames →
      ∃ v, s.mean[i]? = some v ∧
        (numericRow s req dkm dmi)[i]? = some (col, v)) := by
  constructor
  · simp only [numericRow, List.map_map]
    have hc : (Prod.fst ∘ fun p : ℕ × String =>
        (p.2, numericValue s req dkm dmi p.1 p.2)) = Prod.snd := rfl
    rw [hc, List.enum_map_snd]
  · intro i col h hcol
    have hlt : i < s.feature_names.length := by
      by_contra hge
      rw [List.getElem?_eq_none (not_lt.mp hge)] at h
      exact Option.noConfusion h
    have hltm : i < s.mean.length := by rw [hlen]; exact hlt
    refine ⟨s.mean[i], List.getElem?_eq_getElem hltm, ?_⟩
    simp only [mappedNumericNames, List.mem_cons, List.not_mem_nil, or_false,
      not_or] at hcol
    obtain ⟨h1, h2, h3, h4, h5, h6, h7, h8, h9⟩ := hcol
    simp only [numericRow, List.getElem?_map, List.getElem?_enum, h,
      Option.map_some']
    have hv : numericValue s req dkm dmi i col = s.mean.getD i 0 := by
      simp [numericValue, h1, h2, h3, h4, h5, h6, h7, h8, h9]
    rw [hv, List.getD_eq_getElem s.mean 0 hltm]

/-- Witness for C4 at a concrete two-column scaler whose second column no
resolution rule matches. -/
theorem C4_numeric_row_total_witness :
    ((⟨["trip_distance", "mystery_col"], [9, 42], id⟩ : Scaler).mean.length =
      (⟨["trip_distance", "mystery_col"], [9, 42], id⟩ : Scaler).feature_names.length) ∧
    ((numericRow ⟨["trip_distance", "mystery_col"], [9, 42], id⟩
        ⟨1, 2, 3, 4, 5, 50, "Sunny", "Economy", 10, 2⟩ 5 3.106855).map Prod.fst =
      ["trip_distance", "mystery_col"] ∧
    (∀ (i : ℕ) (col : String),
      (["trip_distance", "mystery_col"] : List String)[i]? = some col →
      col ∉ mappedNumericNames →
      ∃ v, (([9, 42] : List ℝ))[i]? = some v ∧
        (numericRow ⟨["trip_distance", "mystery_col"], [9, 42], id⟩
          ⟨1, 2, 3, 4, 5, 50, "Sunny", "Economy", 10, 2⟩ 5 3.106855)[i]? =
          some (col, v))) :=
  ⟨rfl, C4_numeric_row_total ⟨["trip_distance", "mystery_col"], [9, 42], id⟩
    ⟨1, 2, 3, 4, 5, 50, "Sunny", "Economy", 10, 2⟩ 5 3.106855 rfl⟩

/-- Prepending a column absent from the requested list leaves a column
selection unchanged. -/
lemma colSelect_cons_of_not_mem (c : String) (v : ℝ) (df : List (String × ℝ))
    (cols : List String) (h : c ∉ cols) :
    colSelect ((c, v) :: df) cols = colSelect df cols := by
  induction cols with
  | nil => rfl
  | cons c2 cs ih =>
    have hne : c2 ≠ c := fun he => h (by rw [← he]; exact List.mem_cons_self c2 cs)
    have hcs : c ∉ cs := fun hm => h (List.mem_cons_of_mem c2 hm)
    simp only [colSelect, List.filterMap_cons] at ih ⊢
    rw [show List.lookup c2 ((c, v) :: df) = List.lookup c2 df by
      rw [List.lookup, beq_eq_false_iff_ne.mpr hne]]
    cases hl : List.lookup c2 df with
    | none => simpa [hl] using ih hcs
    | some w => simpa [hl] using ih hcs

/-- Selecting a frame's own columns, in order, returns the frame itself
whenever its column names are distinct. -/
lemma colSelect_self (df : List (String × ℝ)) (h : (df.map Prod.fst).Nodup) :
    colSelect df (df.map Prod.fst) = df := by
  induction df with
  | nil => rfl
  | cons p rest ih =>
    obtain ⟨c, v⟩ := p
    rw [List.map_cons, List.nodup_cons] at h
    show colSelect ((c, v) :: rest) (c :: rest.map Prod.fst) = (c, v) :: rest
    simp only [colSelect, List.filterMap_cons]
    rw [show List.lookup c ((c, v) :: rest) = some v by
      rw [List.lookup, beq_self_eq_true]]
    have htail := colSelect_cons_of_not_mem c v rest (rest.map Prod.fst) h.1
    simp only [colSelect] at htail
    rw [htail]
    exact congrArg _ (ih h.2)

/-- C1: whenever the fitted artifacts are shape-consistent (the scaler
returns one value per declared numeric column, the encoder one value per
declared output column) and the declared names are distinct, the final
feature frame handed to every model is exactly the scaled numeric block
followed by the encoded categorical block, with column order
`numeric_feature_names ++ encoded_categorical_feature_names`. -/
theorem C1_feature_vector_order (s : Scaler) (e : Encoder) (req : RideRequest)
    (hs : (numScaled s req (resolvedDistance req)
        (resolvedDistance req * 0.621371)).length = s.feature_names.length)
    (he : (encodedVec e req).length = e.output_names.length)
    (hn : (s.feature_names ++ e.output_names).Nodup) :
    pipelineDf s e req =
      s.feature_names.zip (numScaled s req (resolvedDistance req)
        (resolvedDistance req * 0.621371)) ++
      e.output_names.zip (encodedVec e req) ∧
    (pipelineDf s e req).map Prod.fst = featureColumns s e := by
  have hdf : ((numDf s req (resolvedDistance req)
        (resolvedDistance req * 0.621371) ++ catDf e req).map Prod.fst) =
      featureColumns s e := by
    rw [List.map_append, featureColumns, numDf, catDf]
    rw [List.map_fst_zip _ _ (le_of_eq hs.symm),
      List.map_fst_zip _ _ (le_of_eq he.symm)]
  have hmain : pipelineDf s e req =
      numDf s req (resolvedDistance req) (resolvedDistance req * 0.621371) ++
        catDf e req := by
    rw [pipelineDf, finalDf, ← hdf]
    exact colSelect_self _ (by rw [hdf]; exact hn)
  constructor
  · rw [hmain, numDf, catDf]
  · rw [hmain, hdf]

/-- A concrete two-column scaler whose transform is the identity, used by
witnesses. -/
noncomputable def sampleScaler : Scaler := ⟨["a", "b"], [1, 2], id⟩

/-- A concrete one-column encoder with a single output column, used by
witnesses. -/
noncomputable def sampleEncoder : Encoder :=
  ⟨["weather_condition"], fun _ => [7], ["w_Rainy"]⟩

/-- A concrete request with a positive supplied distance, used by
witnesses. -/
def sampleRequest : RideRequest := ⟨1, 2, 3, 4, 5, 50, "Sunny", "Economy", 10, 2⟩

/-- A concrete model set with only the linear model loaded, predicting the
constant 20, used by witnesses. -/
noncomputable def sampleModels : ModelSet := ⟨some fun _ => 20, none, none⟩

/-- Witness for C1 at the concrete sample artifacts and request. -/
theorem C1_feature_vector_order_witness :
    ((numScaled sampleScaler sampleRequest (resolvedDistance sampleRequest)
        (resolvedDistance sampleRequest * 0.621371)).length =
      sampleScaler.feature_names.length ∧
     (encodedVec sampleEncoder sampleRequest).length =
      sampleEncoder.output_names.length ∧
     (sampleScaler.feature_names ++ sampleEncoder.output_names).Nodup) ∧
    (pipelineDf sampleScaler sampleEncoder sampleRequest =
      sampleScaler.feature_names.zip (numScaled sampleScaler sampleRequest
        (resolvedDistance sampleRequest)
        (resolvedDistance sampleRequest * 0.621371)) ++
      sampleEncoder.output_names.zip (encodedVec sampleEncoder sampleRequest) ∧
    (pipelineDf sampleScaler sampleEncoder sampleRequest).map Prod.fst =
      featureColumns sampleScaler sampleEncoder) := by
  have hs : (numScaled sampleScaler sampleRequest (resolvedDistance sampleRequest)
      (resolvedDistance sampleRequest * 0.621371)).length =
      sampleScaler.feature_names.length := by
    simp [sampleScaler, numScaled, numRawVec, numericRow]
  have he : (encodedVec sampleEncoder sampleRequest).length =
      sampleEncoder.output_names.length := by
    simp [sampleEncoder, encodedVec]
  have hn : (sampleScaler.feature_names ++ sampleEncoder.output_names).Nodup := by
    simp [sampleScaler, sampleEncoder]
  exact ⟨⟨hs, he, hn⟩,
    C1_feature_vector_order sampleScaler sampleEncoder sampleRequest hs he hn⟩

/-- C5: on every request the ensemble serves, the surge multiplier follows
exactly the traffic/weather classification, and the response's fare fields
are the two-decimal roundings of the exact (unrounded) quantities:
`final_fare = base × multiplier`, `surge_fee = final_fare − base`, and
`hidden_fee_vs_fair = base − fair_price` with no rounding applied before
that subtraction. -/
theorem C5_surge_and_fees (ms : ModelSet) (s : Scaler) (e : Encoder)
    (req : RideRequest) (base : ℝ) (comps : List (String × ℝ))
    (hr : ensembleResult ms s e req = Except.ok (base, comps)) :
    surge_multiplier_of req.traffic_level req.weather =
      (if req.traffic_level > 60 ∨ req.weather = "Rainy" ∨
          req.weather = "Snowy" ∨ req.weather = "Foggy" then 1.30
       else if req.traffic_level > 35 then 1.15 else 1.0) ∧
    predictEndpoint ms s e req = Except.ok
      { fair_taxi_price := round2 (compute_fair_taxi_price
          (resolvedDistance req) req.traffic_level)
        model_base_price := round2 base
        hidden_fee_vs_fair := round2 (base - compute_fair_taxi_price
          (resolvedDistance req) req.traffic_level)
        final_ai_fare := round2
          (base * surge_multiplier_of req.traffic_level req.weather)
        surge_multiplier := round2
          (surge_multiplier_of req.traffic_level req.weather)
        surge_fee := round2
          (base * surge_multiplier_of req.traffic_level req.weather - base)
        model_used := "ensemble"
        model_component_prices := comps.map (fun p => (p.1, round2 p.2))
        in_pickup_lat := req.pickup_lat
        in_pickup_lng := req.pickup_lng
        in_drop_lat := req.drop_lat
        in_drop_lng := req.drop_lng
        in_distance_km := round3 (resolvedDistance req)
        in_traffic_level := req.traffic_level
        in_weather := req.weather
        in_car_type := req.car_type
        in_hour := req.hour
        in_day_of_week := req.day_of_week } := by
  constructor
  · simp only [surge_multiplier_of, List.mem_cons, List.not_mem_nil, or_false,
      List.mem_singleton]
  · simp only [predictEndpoint, hr]

/-- Witness for C5 at the concrete sample artifacts: the ensemble returns
base price 20 with one linear-regression component. -/
theorem C5_surge_and_fees_witness :
    ensembleResult sampleModels sampleScaler sampleEncoder sampleRequest =
      Except.ok (20, [("linear_regression", 20)]) ∧
    (surge_multiplier_of sampleRequest.traffic_level sampleRequest.weather =
      (if sampleRequest.traffic_level > 60 ∨ sampleRequest.weather = "Rainy" ∨
          sampleRequest.weather = "Snowy" ∨ sampleRequest.weather = "Foggy"
        then 1.30
       else if sampleRequest.traffic_level > 35 then 1.15 else 1.0) ∧
    predictEndpoint sampleModels sampleScaler sampleEncoder sampleRequest =
      Except.ok
      { fair_taxi_price := round2 (compute_fair_taxi_price
          (resolvedDistance sampleRequest) sampleRequest.traffic_level)
        model_base_price := round2 20
        hidden_fee_vs_fair := round2 (20 - compute_fair_taxi_price
          (resolvedDistance sampleRequest) sampleRequest.traffic_level)
        final_ai_fare := round2 (20 * surge_multiplier_of
          sampleRequest.traffic_level sampleRequest.weather)
        surge_multiplier := round2 (surge_multiplier_of
          sampleRequest.traffic_level sampleRequest.weather)
        surge_fee := round2 (20 * surge_multiplier_of
          sampleRequest.traffic_level sampleRequest.weather - 20)
        model_used := "ensemble"
        model_component_prices :=
          [("linear_regression", 20)].map (fun p => (p.1, round2 p.2))
        in_pickup_lat := sampleRequest.pickup_lat
        in_pickup_lng := sampleRequest.pickup_lng
        in_drop_lat := sampleRequest.drop_lat
        in_drop_lng := sampleRequest.drop_lng
        in_distance_km := round3 (resolvedDistance sampleRequest)
        in_traffic_level := sampleRequest.traffic_level
        in_weather := sampleRequest.weather
        in_car_type := sampleRequest.car_type
        in_hour := sampleRequest.hour
        in_day_of_week := sampleRequest.day_of_week }) := by
  have hr : ensembleResult sampleModels sampleScaler sampleEncoder
      sampleRequest = Except.ok (20, [("linear_regression", 20)]) := by
    simp [ensembleResult, predict_app_price_ensemble, sampleModels]
  exact ⟨hr, C5_surge_and_fees sampleModels sampleScaler sampleEncoder
    sampleRequest 20 [("linear_regression", 20)] hr⟩

/-- The seven price outputs of a response: everything except the metadata
string and the echoed inputs block. -/
def priceView (r : Except String FareResponse) :
    Except String (ℝ × ℝ × ℝ × ℝ × ℝ × ℝ × List (String × ℝ)) :=
  r.map (fun resp => (resp.fair_taxi_price, resp.model_base_price,
    resp.hidden_fee_vs_fair, resp.final_ai_fare, resp.surge_multiplier,
    resp.surge_fee, resp.model_component_prices))

/-- C10: two requests that agree on everything but their pickup/drop
coordinates and supply the same positive distance receive identical price
outputs (fair price, base price, hidden fee, final fare, surge multiplier,
surge fee, and per-model components): with a positive supplied distance the
coordinates influence no price output. -/
theorem C10_coordinate_independence (ms : ModelSet) (s : Scaler) (e : Encoder)
    (pla1 pln1 dla1 dln1 pla2 pln2 dla2 dln2 d t : ℝ) (w c : String)
    (hh dow : ℤ) (hd : 0 < d) :
    priceView (predictEndpoint ms s e ⟨pla1, pln1, dla1, dln1, d, t, w, c, hh, dow⟩) =
    priceView (predictEndpoint ms s e ⟨pla2, pln2, dla2, dln2, d, t, w, c, hh, dow⟩) := by
  have h1 : resolvedDistance ⟨pla1, pln1, dla1, dln1, d, t, w, c, hh, dow⟩ = d := by
    simp only [resolvedDistance]
    exact if_neg (not_le.mpr hd)
  have h2 : resolvedDistance ⟨pla2, pln2, dla2, dln2, d, t, w, c, hh, dow⟩ = d := by
    simp only [resolvedDistance]
    exact if_neg (not_le.mpr hd)
  have hdf : pipelineDf s e ⟨pla1, pln1, dla1, dln1, d, t, w, c, hh, dow⟩ =
      pipelineDf s e ⟨pla2, pln2, dla2, dln2, d, t, w, c, hh, dow⟩ := by
    simp only [pipelineDf, h1, h2, finalDf, numDf, numScaled, numRawVec,
      numericRow, numericValue, catDf, encodedVec, catVals, catRow,
      categoricalValue, featureColumns]
  simp only [predictEndpoint, ensembleResult, hdf, h1, h2]
  cases predict_app_price_ensemble ms
      (pipelineDf s e ⟨pla2, pln2, dla2, dln2, d, t, w, c, hh, dow⟩) with
  | error msg => rfl
  | ok pr => rfl

/-- Witness for C10 at two concrete coordinate sets and the sample
artifacts. -/
theorem C10_coordinate_independence_witness :
    (0:ℝ) < 5 ∧
    priceView (predictEndpoint sampleModels sampleScaler sampleEncoder
      ⟨1, 2, 3, 4, 5, 50, "Sunny", "Economy", 10, 2⟩) =
    priceView (predictEndpoint sampleModels sampleScaler sampleEncoder
      ⟨9, 8, 7, 6, 5, 50, "Sunny", "Economy", 10, 2⟩) :=
  ⟨by norm_num, C10_coordinate_independence sampleModels sampleScaler
    sampleEncoder 1 2 3 4 9 8 7 6 5 50 "Sunny" "Economy" 10 2 (by norm_num)⟩

end FairFare
